import Mathlib

/-!
Shallow embedding of `middleware.go` of the `saml` package (the
`ServiceProviderMiddleware` session-authorization layer) together with the
behavior of the vendored `dgrijalva/jwt-go` functions it calls
(`jwt.New`/`SignedString` and `jwt.Parse`).

Modelling conventions:
- Machine time (`timeNow()` in the source, injectable) is an explicit `Int`
  parameter `now`, counted in Unix seconds.
- JWT token strings are represented symbolically: a well-formed JWS is the
  structure `Token` (declared algorithm, claim set, attached signature) and a
  string that does not parse as a JWS is `RawToken.malformed`.  The HMAC is
  modelled as a perfect MAC: `hmacSign alg key payload` is a distinct value
  for each triple, so a signature verifies exactly when it was produced with
  the same algorithm, key and payload (the Dolev-Yao style symbolic model).
- HTTP side effects (`http.Error`, `http.SetCookie`, `http.Redirect`,
  `panic`) become constructors of explicit outcome types.
- `pem.Decode([]byte(m.ServiceProvider.Key)).Bytes` — the raw secret bytes —
  is the field `key` of the middleware model.
-/

namespace Saml

/-- JWS signing-algorithm names as dispatched by `jwt.GetSigningMethod`:
the three HMAC-SHA methods, the `none` method, and any other registered or
unregistered name (RS256, garbage, ...). -/
inductive Alg
  | HS256
  | HS384
  | HS512
  | noneAlg
  | other (name : String)
deriving DecidableEq

/-- A JWT claim value: the source stores strings (assertion attributes) and
integer instants (the `exp` claim, an `int64` Unix time that JSON round-trips
as a number). -/
inductive ClaimValue
  | str (s : String)
  | int (n : Int)
deriving DecidableEq

/-- A claim set, i.e. Go's `map[string]interface{}` of `token.Claims`,
modelled as an association list with unique keys maintained by `claimsSet`. -/
abbrev Claims := List (String × ClaimValue)

/-- Map lookup `claims[k]` (first binding of `k`, `none` when absent). -/
def claimsGet (cs : Claims) (k : String) : Option ClaimValue :=
  (cs.find? (fun p => p.1 = k)).map (fun p => p.2)

/-- Map update `claims[k] = v`: any previous binding of `k` is replaced. -/
def claimsSet (cs : Claims) (k : String) (v : ClaimValue) : Claims :=
  cs.filter (fun p => p.1 ≠ k) ++ [(k, v)]

/-- A symbolic MAC signature: records the algorithm, key and signed payload.
Decidable equality of `Sig` is the symbolic counterpart of comparing the
recomputed MAC against the embedded one. -/
structure Sig where
  alg : Alg
  key : List Nat
  payload : Claims
deriving DecidableEq

/-- Perfect-MAC model of the HMAC-SHA computation the `jwt-go` signing
methods perform over the encoded header and claims. -/
def hmacSign (a : Alg) (key : List Nat) (payload : Claims) : Sig :=
  ⟨a, key, payload⟩

/-- A well-formed JWS: the `alg` declared in its header, its claim set, and
its signature. -/
structure Token where
  alg : Alg
  claims : Claims
  sig : Sig
deriving DecidableEq

/-- The result of `token.SignedString(key)` for a token created with
`jwt.New(jwt.GetSigningMethod(a))` and the given claims: the serialized JWS.
For HMAC methods with a byte-slice key this never fails in the source. -/
def SignedString (a : Alg) (key : List Nat) (cs : Claims) : Token :=
  ⟨a, cs, hmacSign a key cs⟩

/-- A candidate token string as handed to `jwt.Parse`: either a well-formed
JWS or something that fails JWS decoding. -/
inductive RawToken
  | good (t : Token)
  | malformed (s : String)
deriving DecidableEq

/-- `jwt-go`'s registered-claim validation of `exp`: when the claim set has a
numeric `exp`, the token is expired iff `now > exp`; a missing or non-numeric
`exp` is not checked. -/
def expOk (cs : Claims) (now : Int) : Bool :=
  match claimsGet cs "exp" with
  | some (.int e) => now ≤ e
  | _ => true

/-- `jwt-go`'s registered-claim validation of `nbf`: when the claim set has a
numeric `nbf`, the token is not valid yet iff `now < nbf`; a missing or
non-numeric `nbf` is not checked. -/
def nbfOk (cs : Claims) (now : Int) : Bool :=
  match claimsGet cs "nbf" with
  | some (.int n) => n ≤ now
  | _ => true

/-- `jwt.Parse(s, keyFunc)` as called at `middleware.go:130` and
`middleware.go:178`, where the key function returns the PEM-decoded secret
bytes unconditionally — it never inspects `t.Method`, so the verification
method is the one named by the token's own `alg` header.  `jwt-go` then:
looks up the signing method by that name (an HMAC method verifies with the
byte-slice key; `none` demands the special unsafe key value and any other
method rejects a byte-slice key, so both yield an invalid token), validates
the `exp` and `nbf` registered claims, and verifies the signature.  Returns
the claims of a valid token, `none` when `err != nil || !token.Valid`. -/
def jwtParse (key : List Nat) (now : Int) (raw : RawToken) : Option Claims :=
  match raw with
  | .malformed _ => none
  | .good t =>
    match t.alg with
    | .HS256 | .HS384 | .HS512 =>
      if t.sig = hmacSign t.alg key t.claims ∧ expOk t.claims now = true ∧
          nbfOk t.claims now = true then
        some t.claims
      else
        none
    | _ => none

/-- Go's `textproto.CanonicalMIMEHeaderKey` on the character list: the first
letter and every letter following a hyphen is upper-cased, every other letter
lower-cased (header names made of valid token characters assumed). -/
def canonList : Bool → List Char → List Char
  | _, [] => []
  | up, c :: cs =>
    if c = '-' then
      '-' :: canonList true cs
    else
      (if up then c.toUpper else c.toLower) :: canonList false cs

/-- Canonical form of a header name, e.g. `"x-saml-uid" ↦ "X-Saml-Uid"`. -/
def CanonicalMIMEHeaderKey (s : String) : String :=
  ⟨canonList true s.data⟩

/-- `http.Header`, a map from canonical header names to values, keyed here by
the canonical name.  (The source only ever uses single-valued `Set`/`Get`.) -/
abbrev Headers := List (String × String)

/-- `r.Header.Set(k, v)`: stores under the canonical key, replacing any
existing values for that key. -/
def headerSet (hs : Headers) (k v : String) : Headers :=
  (CanonicalMIMEHeaderKey k, v) :: hs.filter (fun p => p.1 ≠ CanonicalMIMEHeaderKey k)

/-- `r.Header.Get(k)`: looks up the canonical form of `k`. -/
def headerGet (hs : Headers) (k : String) : Option String :=
  (hs.find? (fun p => p.1 = CanonicalMIMEHeaderKey k)).map (fun p => p.2)

/-- An inbound HTTP request, restricted to the parts the middleware reads:
URL path and raw query, header map, cookies, and the `RelayState` form field
(`none` models `r.Form.Get("RelayState") == ""`, i.e. absent or empty). -/
structure Request where
  path : String
  query : String
  headers : Headers
  cookies : List (String × RawToken)
  relayStateForm : Option RawToken
deriving DecidableEq

/-- `r.Cookie(name)`: first cookie with that name, error (`none`) if absent. -/
def cookieGet (cookies : List (String × RawToken)) (name : String) : Option RawToken :=
  (cookies.find? (fun p => p.1 = name)).map (fun p => p.2)

/-- `r.URL.String()` for a server-side request URL: path, plus `?query` when
the raw query is nonempty. -/
def urlString (r : Request) : String :=
  if r.query = "" then r.path else r.path ++ "?" ++ r.query

/-- The middleware state the default functions read: the PEM-decoded secret
bytes of `m.ServiceProvider.Key` and the path of `m.ServiceProvider.AcsURL`.
The Go struct has no further configuration (in particular no session-lifetime
field). -/
structure ServiceProviderMiddleware where
  key : List Nat
  acsPath : String
deriving DecidableEq

/-- `const cookieMaxAge = time.Hour` (`middleware.go:36`), in seconds: used
both for the `exp` claim (`timeNow().Add(cookieMaxAge).Unix()`) and for the
cookie's `MaxAge` (`int(cookieMaxAge.Seconds())`). -/
def cookieMaxAge : Int := 3600

/-- `const cookieName = "token"` (`middleware.go:37`). -/
def cookieName : String := "token"

/-- The panic message at `middleware.go:191`. -/
def xSamlPanicMsg : String := "X-Saml-* headers should not exist when this function is called"

/-- The panic message at `middleware.go:112`. -/
def wrapPanicMsg : String := "don't wrap ServiceProviderMiddleware with RequireAccountMiddleware"

/-- The Go runtime panic raised by the failed type assertion
`relayState.Claims["uri"].(string)` at `middleware.go:137` (paraphrased
message; the runtime's own text mentions the interface conversion). -/
def uriAssertionPanicMsg : String := "interface conversion: relayState claim uri is not a string"

/-- Outcome of `DefaultIsAuthorized`: the boolean it returns, or a panic. -/
inductive AuthVerdict
  | authorized
  | denied
  | panicked (msg : String)
deriving DecidableEq

/-- Whether a verdict is the panic outcome. -/
def AuthVerdict.isPanicked : AuthVerdict → Bool
  | .panicked _ => true
  | _ => false

/-- The header-scan loop at `middleware.go:189-193`: does any inbound header
name start with the literal prefix `"X-Saml"`? -/
def hasXSamlHeader (hs : Headers) : Bool :=
  hs.any (fun p => "X-Saml".data.isPrefixOf p.1.data)

/-- The copy loop at `middleware.go:195-199`: for each claim whose value is a
string, `r.Header.Set("X-Saml-"+claimName, value)`; other claims are skipped
by the failed type switch. -/
def setStringClaims (hs : Headers) (cs : Claims) : Headers :=
  cs.foldl
    (fun acc p =>
      match p.2 with
      | .str v => headerSet acc ("X-Saml-" ++ p.1) v
      | .int _ => acc)
    hs

/-- `DefaultIsAuthorized` (`middleware.go:173-201`).  Returns the verdict
paired with the request's header map after the call (the source mutates
`r.Header` in place; every `return false` path precedes any mutation, and the
panic fires before the copy loop). -/
def DefaultIsAuthorized (m : ServiceProviderMiddleware) (now : Int) (r : Request) :
    AuthVerdict × Headers :=
  match cookieGet r.cookies cookieName with
  | none => (.denied, r.headers)
  | some raw =>
    match jwtParse m.key now raw with
    | none => (.denied, r.headers)
    | some claims =>
      if hasXSamlHeader r.headers then
        (.panicked xSamlPanicMsg, r.headers)
      else
        (.authorized, setStringClaims r.headers claims)

/-- A `Set-Cookie` emission, as built at `middleware.go:150-156`. -/
structure SetCookie where
  name : String
  value : Token
  maxAge : Int
  httpOnly : Bool
  path : String
deriving DecidableEq

/-- Outcome of `DefaultAuthorizeFunc`: 403-and-stop, panic, or success —
set the session cookie then `http.Redirect(w, r, uri, 302)`. -/
inductive AuthorizeOut
  | forbidden
  | success (cookie : SetCookie) (location : String)
  | panicked (msg : String)
deriving DecidableEq

/-- The `AssertionAttributes` handed over by `ParseResponse`, reduced to the
two fields the middleware reads: `FriendlyName` and `Value` (both strings). -/
abbrev AssertionAttributes := List (String × String)

/-- The claim set of the session token built at `middleware.go:140-144`: one
claim per assertion attribute (friendly name ↦ string value, later
attributes overwriting earlier equally-named ones, map semantics), then
`claims["exp"] = timeNow().Add(cookieMaxAge).Unix()`. -/
def sessionClaims (now : Int) (attrs : AssertionAttributes) : Claims :=
  claimsSet (attrs.foldl (fun cs a => claimsSet cs a.1 (.str a.2)) []) "exp"
    (.int (now + cookieMaxAge))

/-- The cookie set at `middleware.go:150-156`: name `"token"`, value the
HS256-signed session token, `MaxAge` 3600, not HTTP-only, path `/`. -/
def issuedCookie (m : ServiceProviderMiddleware) (now : Int) (attrs : AssertionAttributes) :
    SetCookie :=
  { name := cookieName
    value := SignedString .HS256 m.key (sessionClaims now attrs)
    maxAge := cookieMaxAge
    httpOnly := false
    path := "/" }

/-- `DefaultAuthorizeFunc` (`middleware.go:125-159`).  `redirectURI` defaults
to `"/"`; a nonempty `RelayState` form value is parsed with the secret and a
parse/validity failure answers 403 and stops; on success the `uri` claim is
read through the type assertion `.(string)`, which panics when the claim is
absent or not a string.  Otherwise the session cookie is set and the browser
redirected to `redirectURI`. -/
def DefaultAuthorizeFunc (m : ServiceProviderMiddleware) (now : Int) (r : Request)
    (attrs : AssertionAttributes) : AuthorizeOut :=
  match r.relayStateForm with
  | none => .success (issuedCookie m now attrs) "/"
  | some raw =>
    match jwtParse m.key now raw with
    | none => .forbidden
    | some cs =>
      match claimsGet cs "uri" with
      | some (.str u) => .success (issuedCookie m now attrs) u
      | _ => .panicked uriAssertionPanicMsg

/-- Outcome of the handler wrapped by `RequireAccountMiddleware`: serve the
inner handler (with the possibly-extended header map), 302 to the IdP, 500
from a failed redirect-request build, or a panic. -/
inductive MwOut
  | passThrough (req : Request)
  | redirect (location : String)
  | serverError (msg : String)
  | panicked (msg : String)
deriving DecidableEq

/-- The relay-state token built at `middleware.go:93-95`: a fresh HS256 token
whose single claim is `uri = r.URL.String()`, signed with the secret. -/
def relayStateToken (m : ServiceProviderMiddleware) (r : Request) : Token :=
  SignedString .HS256 m.key (claimsSet [] "uri" (.str (urlString r)))

/-- `RequireAccountMiddleware` (`middleware.go:81-119`) with the default
`IsAuthorizedFunc` (`m.IsAuthorizedFunc == nil`).  The external
`m.ServiceProvider.MakeRedirectAuthenticationRequest` is the parameter
`makeRedirectAuthenticationRequest` (returning `none` on error, in which
case the source answers 500).  The loop-guard panic on `r.URL.Path ==
acsURL.Path` sits between the redirect-URL build and the `http.Redirect`. -/
def RequireAccountMiddleware (m : ServiceProviderMiddleware) (now : Int)
    (makeRedirectAuthenticationRequest : Token → Option String) (r : Request) : MwOut :=
  match DefaultIsAuthorized m now r with
  | (.authorized, hs) => .passThrough { r with headers := hs }
  | (.panicked msg, _) => .panicked msg
  | (.denied, _) =>
    match makeRedirectAuthenticationRequest (relayStateToken m r) with
    | none => .serverError "cannot make redirect authentication request"
    | some redirectURL =>
      if r.path = m.acsPath then
        .panicked wrapPanicMsg
      else
        .redirect redirectURL

/-- The canonical trusted header names generated by the string-valued claims
of a claim set, in claim order. -/
def stringClaimHeaderNames (cs : Claims) : List String :=
  cs.filterMap
    (fun p =>
      match p.2 with
      | .str _ => some (CanonicalMIMEHeaderKey ("X-Saml-" ++ p.1))
      | .int _ => none)

/-- A concrete middleware instance: secret bytes `[1, 2, 3]`, ACS path
`/saml/acs`. -/
def mA : ServiceProviderMiddleware := ⟨[1, 2, 3], "/saml/acs"⟩

/-- A concrete claim set: one string attribute and a far-future `exp`. -/
def sampleClaims : Claims :=
  [("uid", ClaimValue.str "alice@example.com"), ("exp", ClaimValue.int 2000000000)]

/-- A session token over `sampleClaims` signed with `mA`'s secret, HS256. -/
def validCookieToken : Token := SignedString .HS256 mA.key sampleClaims

/-- The same claim set signed with the same secret but declared HS384. -/
def hs384Token : Token := SignedString .HS384 mA.key sampleClaims

/-- A request whose session cookie is the HS384-signed token. -/
def hs384Request : Request := ⟨"/p", "", [], [(cookieName, .good hs384Token)], none⟩

/-- A request carrying an `X-Saml`-prefixed header and no cookie at all. -/
def xsamlNoCookieRequest : Request := ⟨"/p", "", [("X-Saml-Uid", "x")], [], none⟩

/-- A request carrying an `X-Saml`-prefixed header and a valid session
cookie. -/
def xsamlValidCookieRequest : Request :=
  ⟨"/p", "", [("X-Saml-Evil", "x")], [(cookieName, .good validCookieToken)], none⟩

/-- A request with a valid session cookie and no inbound `X-Saml` header. -/
def cleanValidRequest : Request := ⟨"/p", "", [], [(cookieName, .good validCookieToken)], none⟩

/-- An unauthenticated request for `/protected?x=1`. -/
def protectedRequest : Request := ⟨"/protected", "x=1", [], [], none⟩

/-- An unauthenticated request for the ACS path itself. -/
def acsRequest : Request := ⟨"/saml/acs", "", [], [], none⟩

/-- A callback request whose `RelayState` form value is not a JWS. -/
def badRelayRequest : Request := ⟨"/saml/acs", "", [], [], some (.malformed "forged")⟩

/-- A validly signed relay-state token with an empty claim set (no `uri`). -/
def noUriToken : Token := SignedString .HS256 mA.key []

/-- A callback request whose `RelayState` verifies but lacks a `uri` claim. -/
def noUriRelayRequest : Request := ⟨"/saml/acs", "", [], [], some (.good noUriToken)⟩

/-- A claim set whose `exp` lies in the past for any positive clock. -/
def expiredClaims : Claims := [("exp", ClaimValue.int 0)]

/-- A claim set whose `nbf` lies in the future for small clocks. -/
def notYetClaims : Claims := [("nbf", ClaimValue.int 100)]

/-- A stand-in for `MakeRedirectAuthenticationRequest` that always succeeds
with a fixed IdP URL. -/
def idpOf : Token → Option String := fun _ => some "https://idp.example.com/sso"

theorem find_filter_ne {α : Type} (a b : String) (h : a ≠ b) (hs : List (String × α)) :
    (hs.filter (fun p => p.1 ≠ b)).find? (fun p => p.1 = a) = hs.find? (fun p => p.1 = a) := by
  induction hs with
  | nil => rfl
  | cons q t ih =>
    rw [List.filter_cons]
    by_cases hq : q.1 = b
    · rw [if_neg (by simpa using hq),
        List.find?_cons_of_neg _
          (by simp only [decide_eq_true_eq]; exact fun e => h (e.symm.trans hq))]
      exact ih
    · rw [if_pos (by simpa using hq)]
      by_cases hqa : q.1 = a
      · rw [List.find?_cons_of_pos _ (by simpa using hqa),
          List.find?_cons_of_pos _ (by simpa using hqa)]
      · rw [List.find?_cons_of_neg _ (by simpa using hqa),
          List.find?_cons_of_neg _ (by simpa using hqa)]
        exact ih

theorem find_filter_self {α : Type} (b : String) (hs : List (String × α)) :
    (hs.filter (fun p => p.1 ≠ b)).find? (fun p => p.1 = b) = none := by
  rw [List.find?_eq_none]
  intro x hx
  have hne := (List.mem_filter.mp hx).2
  simpa using hne

theorem claimsGet_claimsSet_self (cs : Claims) (k : String) (v : ClaimValue) :
    claimsGet (claimsSet cs k v) k = some v := by
  unfold claimsGet claimsSet
  rw [List.find?_append, find_filter_self]
  simp [List.find?_cons_of_pos]

theorem jwtParse_signed_same_key (key : List Nat) (now : Int) (cs : Claims)
    (h : expOk cs now = true) (h' : nbfOk cs now = true) :
    jwtParse key now (.good (SignedString .HS256 key cs)) = some cs := by
  simp [jwtParse, SignedString, h, h']

theorem headerGet_headerSet (hs : Headers) (k v k' : String) :
    headerGet (headerSet hs k v) k' =
      if CanonicalMIMEHeaderKey k' = CanonicalMIMEHeaderKey k then some v
      else headerGet hs k' := by
  unfold headerGet headerSet
  by_cases h : CanonicalMIMEHeaderKey k' = CanonicalMIMEHeaderKey k
  · rw [if_pos h, List.find?_cons_of_pos _ (by simpa using h.symm)]
    rfl
  · rw [if_neg h, List.find?_cons_of_neg _ (by simpa using fun e => h e.symm),
      find_filter_ne _ _ h]

theorem headerGet_setStringClaims_frame (cs : Claims) (nm : String)
    (h : ∀ k v, (k, ClaimValue.str v) ∈ cs →
      CanonicalMIMEHeaderKey ("X-Saml-" ++ k) ≠ CanonicalMIMEHeaderKey nm) :
    ∀ hs : Headers, headerGet (setStringClaims hs cs) nm = headerGet hs nm := by
  induction cs with
  | nil => intro hs; rfl
  | cons p t ih =>
    obtain ⟨k0, cv0⟩ := p
    intro hs
    cases cv0 with
    | int n =>
      exact ih (fun k v hm => h k v (List.mem_cons_of_mem _ hm)) hs
    | str v0 =>
      have hstep : setStringClaims hs ((k0, ClaimValue.str v0) :: t) =
          setStringClaims (headerSet hs ("X-Saml-" ++ k0) v0) t := rfl
      rw [hstep, ih (fun k v hm => h k v (List.mem_cons_of_mem _ hm)), headerGet_headerSet,
        if_neg (fun e => h k0 v0 (List.mem_cons_self _ _) e.symm)]

theorem mem_stringClaimHeaderNames (cs : Claims) (k : String) (v : String)
    (h : (k, ClaimValue.str v) ∈ cs) :
    CanonicalMIMEHeaderKey ("X-Saml-" ++ k) ∈ stringClaimHeaderNames cs := by
  unfold stringClaimHeaderNames
  exact List.mem_filterMap.mpr ⟨(k, ClaimValue.str v), h, rfl⟩

theorem headerGet_setStringClaims_mem (cs : Claims)
    (hnd : (stringClaimHeaderNames cs).Nodup) (k : String) (v : String)
    (hmem : (k, ClaimValue.str v) ∈ cs) :
    ∀ hs : Headers, headerGet (setStringClaims hs cs) ("X-Saml-" ++ k) = some v := by
  induction cs with
  | nil => cases hmem
  | cons p t ih =>
    obtain ⟨k0, cv0⟩ := p
    intro hs
    rcases List.mem_cons.mp hmem with heq | hmemt
    · injection heq with h1 h2
      subst h1
      subst h2
      have hnotmem : CanonicalMIMEHeaderKey ("X-Saml-" ++ k) ∉ stringClaimHeaderNames t := by
        have : stringClaimHeaderNames ((k, ClaimValue.str v) :: t) =
            CanonicalMIMEHeaderKey ("X-Saml-" ++ k) :: stringClaimHeaderNames t := rfl
        rw [this] at hnd
        exact (List.nodup_cons.mp hnd).1
      have hstep : setStringClaims hs ((k, ClaimValue.str v) :: t) =
          setStringClaims (headerSet hs ("X-Saml-" ++ k) v) t := rfl
      rw [hstep,
        headerGet_setStringClaims_frame t _
          (fun k' v' hm' e => hnotmem (e ▸ mem_stringClaimHeaderNames t k' v' hm')),
        headerGet_headerSet, if_pos rfl]
    · cases cv0 with
      | int n =>
        have hnd' : (stringClaimHeaderNames t).Nodup := by
          have : stringClaimHeaderNames ((k0, ClaimValue.int n) :: t) =
              stringClaimHeaderNames t := rfl
          rwa [this] at hnd
        exact ih hnd' hmemt hs
      | str v0 =>
        have hnd' : (stringClaimHeaderNames t).Nodup := by
          have : stringClaimHeaderNames ((k0, ClaimValue.str v0) :: t) =
              CanonicalMIMEHeaderKey ("X-Saml-" ++ k0) :: stringClaimHeaderNames t := rfl
          rw [this] at hnd
          exact (List.nodup_cons.mp hnd).2
        exact ih hnd' hmemt (headerSet hs ("X-Saml-" ++ k0) v0)

/-- C1: the claim says session-cookie verification accepts only tokens whose
signature was produced with the fixed algorithm HS256.  The code's key
function returns the secret without inspecting the token's method, so a
token declaring HS384 and signed with the same secret under HS384 is
accepted by `DefaultIsAuthorized`: the claim fails on the code. -/
theorem C1_foreign_alg_token_accepted :
    hs384Token.alg ≠ Alg.HS256 ∧
      (DefaultIsAuthorized mA 0 hs384Request).1 = AuthVerdict.authorized := by
  constructor
  · decide
  · decide

/-- C2 counterexample: a request bearing the trusted-prefixed header
`X-Saml-Uid` but no session cookie makes `DefaultIsAuthorized` return false
(denied) — it does not panic, contradicting the claim that any such request
aborts fatally even when the cookie is absent. -/
theorem C2_counterexample :
    (DefaultIsAuthorized mA 0 xsamlNoCookieRequest).1 = AuthVerdict.denied ∧
      ((DefaultIsAuthorized mA 0 xsamlNoCookieRequest).1).isPanicked = false := by
  constructor
  · decide
  · decide

/-- C2 (amended): when the inbound headers include an `X-Saml`-prefixed
name, `DefaultIsAuthorized` panics exactly when the session cookie is
present and verifies successfully; when the cookie is absent, or present but
failing verification, it returns false without aborting (the cookie check
precedes the header scan). -/
theorem C2_panic_requires_valid_cookie (m : ServiceProviderMiddleware) (now : Int)
    (r : Request) (hdr : hasXSamlHeader r.headers = true) :
    (∀ raw cs, cookieGet r.cookies cookieName = some raw →
        jwtParse m.key now raw = some cs →
        (DefaultIsAuthorized m now r).1 = AuthVerdict.panicked xSamlPanicMsg) ∧
      (cookieGet r.cookies cookieName = none →
        (DefaultIsAuthorized m now r).1 = AuthVerdict.denied) ∧
      (∀ raw, cookieGet r.cookies cookieName = some raw →
        jwtParse m.key now raw = none →
        (DefaultIsAuthorized m now r).1 = AuthVerdict.denied) := by
  refine ⟨?_, ?_, ?_⟩
  · intro raw cs h1 h2
    simp [DefaultIsAuthorized, h1, h2, hdr]
  · intro h1
    simp [DefaultIsAuthorized, h1]
  · intro raw h1 h2
    simp [DefaultIsAuthorized, h1, h2]

/-- Witness for C2: with a valid cookie and an inbound `X-Saml-Evil` header
the function panics with the source's message. -/
theorem C2_witness :
    (DefaultIsAuthorized mA 0 xsamlValidCookieRequest).1 =
      AuthVerdict.panicked xSamlPanicMsg :=
  (C2_panic_requires_valid_cookie mA 0 xsamlValidCookieRequest (by decide)).1
    (.good validCookieToken) sampleClaims rfl (by decide)

/-- C3: in `DefaultAuthorizeFunc`, a present `RelayState` that fails
signature/validity verification yields 403 and stops (no cookie is set and
no redirect is issued: the `forbidden` outcome carries neither), while an
absent `RelayState` redirects to the site root `/` after setting the session
cookie. -/
theorem C3_bad_relaystate_forbidden (m : ServiceProviderMiddleware) (now : Int)
    (r : Request) (attrs : AssertionAttributes) :
    (∀ raw, r.relayStateForm = some raw → jwtParse m.key now raw = none →
        DefaultAuthorizeFunc m now r attrs = AuthorizeOut.forbidden) ∧
      (r.relayStateForm = none →
        DefaultAuthorizeFunc m now r attrs =
          AuthorizeOut.success (issuedCookie m now attrs) "/") := by
  constructor
  · intro raw h1 h2
    simp [DefaultAuthorizeFunc, h1, h2]
  · intro h1
    simp [DefaultAuthorizeFunc, h1]

/-- Witness for C3: a forged (non-JWS) `RelayState` gives the forbidden
outcome; an absent one gives the root redirect with the session cookie. -/
theorem C3_witness :
    DefaultAuthorizeFunc mA 0 badRelayRequest [] = AuthorizeOut.forbidden ∧
      DefaultAuthorizeFunc mA 0 protectedRequest [] =
        AuthorizeOut.success (issuedCookie mA 0 []) "/" :=
  ⟨(C3_bad_relaystate_forbidden mA 0 badRelayRequest []).1 (.malformed "forged") rfl rfl,
   (C3_bad_relaystate_forbidden mA 0 protectedRequest []).2 rfl⟩

/-- C6 counterexample: the round-trip law fails as universally stated — for
the claim set `{exp: 0}` and secret `[1, 2, 3]`, decoding the freshly
encoded token at time 1 yields `Invalid` (the `exp` claim is in the past),
not the original claim set; likewise for `{nbf: 100}` at time 1 (the `nbf`
claim is in the future, the token not valid yet). -/
theorem C6_counterexample :
    jwtParse mA.key 1 (.good (SignedString .HS256 mA.key expiredClaims)) ≠ some expiredClaims ∧
      jwtParse mA.key 1 (.good (SignedString .HS256 mA.key expiredClaims)) = none ∧
      jwtParse mA.key 1 (.good (SignedString .HS256 mA.key notYetClaims)) ≠ some notYetClaims ∧
      jwtParse mA.key 1 (.good (SignedString .HS256 mA.key notYetClaims)) = none := by
  refine ⟨?_, ?_, ?_, ?_⟩
  · decide
  · decide
  · decide
  · decide

/-- C6 (amended): for every claim set C and secret S, decoding with S the
token produced by encoding C with S succeeds and yields exactly C, provided
C's `exp` claim (if present as an instant) is not in the past and C's `nbf`
claim (if present as an instant) is not in the future at the verification
time. -/
theorem C6_roundtrip (cs : Claims) (key : List Nat) (now : Int)
    (h : expOk cs now = true) (h' : nbfOk cs now = true) :
    jwtParse key now (.good (SignedString .HS256 key cs)) = some cs :=
  jwtParse_signed_same_key key now cs h h'

/-- Witness for C6: the sample claim set round-trips at time 0. -/
theorem C6_witness :
    expOk sampleClaims 0 = true ∧ nbfOk sampleClaims 0 = true ∧
      jwtParse mA.key 0 (.good (SignedString .HS256 mA.key sampleClaims)) =
        some sampleClaims :=
  ⟨by decide, by decide, C6_roundtrip sampleClaims mA.key 0 (by decide) (by decide)⟩

/-- C4: an unauthorized request for a non-ACS path is answered with a 302 to
the URL built by the assertion verifier, and the relay-state token handed to
the verifier is signed with the process secret (HS256) and decodes, under
that same secret, to the single claim `uri` = the full original request URI
(path plus query). -/
theorem C4_redirect_carries_uri (m : ServiceProviderMiddleware) (now : Int)
    (verifier : Token → Option String) (r : Request) (u : String)
    (hden : (DefaultIsAuthorized m now r).1 = AuthVerdict.denied)
    (hacs : r.path ≠ m.acsPath)
    (hv : verifier (relayStateToken m r) = some u) :
    RequireAccountMiddleware m now verifier r = MwOut.redirect u ∧
      (relayStateToken m r).sig =
        hmacSign Alg.HS256 m.key [("uri", ClaimValue.str (urlString r))] ∧
      jwtParse m.key now (RawToken.good (relayStateToken m r)) =
        some [("uri", ClaimValue.str (urlString r))] := by
  refine ⟨?_, rfl, ?_⟩
  · cases hda : DefaultIsAuthorized m now r with
    | mk v hs =>
      rw [hda] at hden
      have hvd : v = AuthVerdict.denied := hden
      subst hvd
      simp [RequireAccountMiddleware, hda, hv, hacs]
  · exact jwtParse_signed_same_key m.key now [("uri", ClaimValue.str (urlString r))] rfl rfl

/-- Witness for C4: without a cookie, `/protected?x=1` produces a 302 to the
IdP URL and the relay-state token decodes to `uri = "/protected?x=1"`. -/
theorem C4_witness :
    (DefaultIsAuthorized mA 0 protectedRequest).1 = AuthVerdict.denied ∧
      urlString protectedRequest = "/protected?x=1" ∧
      RequireAccountMiddleware mA 0 idpOf protectedRequest =
        MwOut.redirect "https://idp.example.com/sso" ∧
      jwtParse mA.key 0 (RawToken.good (relayStateToken mA protectedRequest)) =
        some [("uri", ClaimValue.str (urlString protectedRequest))] := by
  have h := C4_redirect_carries_uri mA 0 idpOf protectedRequest
    "https://idp.example.com/sso" (by decide) (by decide) rfl
  exact ⟨by decide, by decide, h.1, h.2.2⟩

/-- C5: when the session cookie verifies and the inbound request carries no
trusted-prefixed header (the source's stated precondition — otherwise it
panics, see C2), `DefaultIsAuthorized` returns true, sets
`X-Saml-<ClaimName>` to the claim value for every string-valued claim
(header names canonicalized, i.e. compared case-insensitively), and copies
nothing else: any header name not generated by a string-valued claim keeps
its inbound value.  The claim-name hypothesis `hnd` rules out two distinct
claim names mapping to the same canonical header. -/
theorem C5_string_claims_bridged (m : ServiceProviderMiddleware) (now : Int) (r : Request)
    (t : Token) (cs : Claims)
    (hc : cookieGet r.cookies cookieName = some (RawToken.good t))
    (hp : jwtParse m.key now (RawToken.good t) = some cs)
    (hclean : hasXSamlHeader r.headers = false)
    (hnd : (stringClaimHeaderNames cs).Nodup) :
    (DefaultIsAuthorized m now r).1 = AuthVerdict.authorized ∧
      (∀ k v, (k, ClaimValue.str v) ∈ cs →
        headerGet (DefaultIsAuthorized m now r).2 ("X-Saml-" ++ k) = some v) ∧
      (∀ nm, (∀ k v, (k, ClaimValue.str v) ∈ cs →
          CanonicalMIMEHeaderKey ("X-Saml-" ++ k) ≠ CanonicalMIMEHeaderKey nm) →
        headerGet (DefaultIsAuthorized m now r).2 nm = headerGet r.headers nm) := by
  have hDIA : DefaultIsAuthorized m now r =
      (AuthVerdict.authorized, setStringClaims r.headers cs) := by
    simp [DefaultIsAuthorized, hc, hp, hclean]
  rw [hDIA]
  exact ⟨rfl, fun k v hm => headerGet_setStringClaims_mem cs hnd k v hm r.headers,
    fun nm hfr => headerGet_setStringClaims_frame cs nm hfr r.headers⟩

/-- Witness for C5: the valid cookie over `sampleClaims` authorizes the
request, yields `X-Saml-Uid` (looked up case-insensitively as
`X-Saml-uid` and `x-saml-UID`) = `alice@example.com`, and the non-string
`exp` claim is not copied. -/
theorem C5_witness :
    (DefaultIsAuthorized mA 0 cleanValidRequest).1 = AuthVerdict.authorized ∧
      headerGet (DefaultIsAuthorized mA 0 cleanValidRequest).2 ("X-Saml-" ++ "uid") =
        some "alice@example.com" ∧
      headerGet (DefaultIsAuthorized mA 0 cleanValidRequest).2 "x-saml-UID" =
        some "alice@example.com" ∧
      headerGet (DefaultIsAuthorized mA 0 cleanValidRequest).2 "X-Saml-Exp" = none := by
  have h := C5_string_claims_bridged mA 0 cleanValidRequest validCookieToken sampleClaims
    rfl (by decide) rfl (by decide)
  exact ⟨h.1, h.2.1 "uid" "alice@example.com" (by decide), by decide, by decide⟩

/-- C7: the claim says the session lifetime is configurable per middleware
instance.  In the code it is the hardcoded constant `cookieMaxAge =
time.Hour` (the source itself carries `TODO(ross): must be configurable`):
the middleware state has no lifetime field, so any two instances issue the
same `Max-Age` (3600 seconds) and the same `exp` offset (now + 3600),
whatever their configuration. -/
theorem C7_lifetime_hardcoded (m1 m2 : ServiceProviderMiddleware) (now : Int)
    (attrs : AssertionAttributes) :
    (issuedCookie m1 now attrs).maxAge = 3600 ∧
      (issuedCookie m2 now attrs).maxAge = (issuedCookie m1 now attrs).maxAge ∧
      claimsGet (sessionClaims now attrs) "exp" = some (ClaimValue.int (now + 3600)) ∧
      cookieMaxAge = 3600 := by
  refine ⟨rfl, rfl, ?_, rfl⟩
  exact claimsGet_claimsSet_self _ "exp" _

/-- C8: for an unauthorized request whose path equals the ACS path, the
wrapped handler never answers with a 302; whenever the assertion verifier
does build a redirect URL, the loop guard panics instead. -/
theorem C8_acs_loop_guard (m : ServiceProviderMiddleware) (now : Int)
    (verifier : Token → Option String) (r : Request)
    (hden : (DefaultIsAuthorized m now r).1 = AuthVerdict.denied)
    (hacs : r.path = m.acsPath) :
    (∀ u, RequireAccountMiddleware m now verifier r ≠ MwOut.redirect u) ∧
      (∀ u, verifier (relayStateToken m r) = some u →
        RequireAccountMiddleware m now verifier r = MwOut.panicked wrapPanicMsg) := by
  cases hda : DefaultIsAuthorized m now r with
  | mk v hs =>
    rw [hda] at hden
    have hvd : v = AuthVerdict.denied := hden
    subst hvd
    constructor
    · intro u
      cases hverif : verifier (relayStateToken m r) with
      | none => simp [RequireAccountMiddleware, hda, hverif]
      | some w => simp [RequireAccountMiddleware, hda, hverif, hacs]
    · intro u hu
      simp [RequireAccountMiddleware, hda, hu, hacs]

/-- Witness for C8: guarding the ACS path itself panics with the source's
message and is not a redirect. -/
theorem C8_witness :
    RequireAccountMiddleware mA 0 idpOf acsRequest = MwOut.panicked wrapPanicMsg ∧
      RequireAccountMiddleware mA 0 idpOf acsRequest ≠
        MwOut.redirect "https://idp.example.com/sso" :=
  ⟨(C8_acs_loop_guard mA 0 idpOf acsRequest (by decide) rfl).2 "https://idp.example.com/sso" rfl,
   (C8_acs_loop_guard mA 0 idpOf acsRequest (by decide) rfl).1 "https://idp.example.com/sso"⟩

/-- C9: whenever `DefaultIsAuthorized` returns false — cookie absent or
token invalid — the request's header map is exactly the inbound one: no
`X-Saml`-prefixed (or any other) header has been added. -/
theorem C9_denied_leaves_headers (m : ServiceProviderMiddleware) (now : Int) (r : Request)
    (h : (DefaultIsAuthorized m now r).1 = AuthVerdict.denied) :
    (DefaultIsAuthorized m now r).2 = r.headers := by
  cases hc : cookieGet r.cookies cookieName with
  | none => simp [DefaultIsAuthorized, hc]
  | some raw =>
    cases hp : jwtParse m.key now raw with
    | none => simp [DefaultIsAuthorized, hc, hp]
    | some cs =>
      exfalso
      by_cases hx : hasXSamlHeader r.headers
      · simp [DefaultIsAuthorized, hc, hp, hx] at h
      · simp [DefaultIsAuthorized, hc, hp, hx] at h

/-- Witness for C9: the cookieless request is denied and its header map is
returned untouched. -/
theorem C9_witness :
    (DefaultIsAuthorized mA 0 protectedRequest).1 = AuthVerdict.denied ∧
      (DefaultIsAuthorized mA 0 protectedRequest).2 = protectedRequest.headers :=
  ⟨by decide, C9_denied_leaves_headers mA 0 protectedRequest (by decide)⟩

/-- C10: a `RelayState` token that verifies successfully but whose claim set
has no `uri` claim, or a non-string one, makes `DefaultAuthorizeFunc` panic
(the failed `.(string)` type assertion) instead of responding 403 or
redirecting. -/
theorem C10_nonstring_uri_panics (m : ServiceProviderMiddleware) (now : Int) (r : Request)
    (attrs : AssertionAttributes) (raw : RawToken) (cs : Claims)
    (h1 : r.relayStateForm = some raw)
    (h2 : jwtParse m.key now raw = some cs)
    (h3 : ∀ s, claimsGet cs "uri" ≠ some (ClaimValue.str s)) :
    DefaultAuthorizeFunc m now r attrs = AuthorizeOut.panicked uriAssertionPanicMsg := by
  cases hu : claimsGet cs "uri" with
  | none => simp [DefaultAuthorizeFunc, h1, h2, hu]
  | some v =>
    cases v with
    | str s => exact absurd hu (h3 s)
    | int n => simp [DefaultAuthorizeFunc, h1, h2, hu]

/-- Witness for C10: a validly signed relay state with an empty claim set
(no `uri`) panics the callback handler. -/
theorem C10_witness :
    DefaultAuthorizeFunc mA 0 noUriRelayRequest [] =
      AuthorizeOut.panicked uriAssertionPanicMsg :=
  C10_nonstring_uri_panics mA 0 noUriRelayRequest [] (.good noUriToken) [] rfl (by decide)
    (fun s h => by simp [claimsGet] at h)

end Saml
